import Mathlib

/-!
Verification of the `takeover` migration tool against its specification.

The development shallowly embeds the three source files of the repository:

* `src/migrator/stage1/migrate_info/balena_cfg_json.rs` — the `BalenaCfgJson`
  config-payload record with its parse/write/check operations and typed
  accessors;
* `src/migrator/stage1/assets.rs` — the embedded-asset store and the stage-2
  pivot-script template substitution;
* `src/bin/takeover.rs` — the `main` entry point dispatching the three phases.

File-system and network effects are modelled by explicit state records and
oracles; machine integers are `Nat`/`Int` with explicit bounds or `% 2^w`
where the code truncates.
-/

set_option maxHeartbeats 2000000
set_option maxRecDepth 200000

namespace Takeover

/-- JSON value trees, modelling `serde_json::Value` as stored in the
`config: HashMap<String, Value>` field of `BalenaCfgJson`
(`balena_cfg_json.rs`).  JSON numbers are modelled as integers: every field
the program reads numerically (`applicationId`, `vpnPort`) is an unsigned
integer, and `serde_json`'s float representation is out of scope of the
claims. -/
inductive Json where
  | null : Json
  | bool (b : Bool) : Json
  | num (n : Int) : Json
  | str (s : String) : Json
  | arr (elems : List Json) : Json
  | obj (members : List (String × Json)) : Json

/-- Lower-case hex digit, as `serde_json` prints `\u00XX` escapes. -/
def hexDigit (n : Nat) : Char :=
  if n < 10 then Char.ofNat (48 + n) else Char.ofNat (87 + n)

/-- Escape one character as `serde_json`'s compact string serializer does:
quote and backslash get a backslash escape, the short control escapes are
used where they exist, all other control characters become `\u00XX`. -/
def escapeChar (c : Char) : List Char :=
  if c = '"' then ['\\', '"']
  else if c = '\\' then ['\\', '\\']
  else if c = Char.ofNat 8 then ['\\', 'b']
  else if c = Char.ofNat 9 then ['\\', 't']
  else if c = Char.ofNat 10 then ['\\', 'n']
  else if c = Char.ofNat 12 then ['\\', 'f']
  else if c = Char.ofNat 13 then ['\\', 'r']
  else if c.toNat < 32 then
    ['\\', 'u', '0', '0', hexDigit (c.toNat / 16), hexDigit (c.toNat % 16)]
  else [c]

/-- Escape a whole string for JSON output. -/
def escapeString (s : String) : String :=
  String.mk (s.data.foldr (fun c acc => escapeChar c ++ acc) [])

mutual

/-- Compact JSON rendering: models both `Value::to_string()` (used by
`set_host_name` on the previous `hostname` value, `balena_cfg_json.rs:198`)
and `serde_json::to_writer` of the config map (`balena_cfg_json.rs:60`,
an object is written for the `HashMap`). -/
def Json.render : Json → String
  | .null => "null"
  | .bool true => "true"
  | .bool false => "false"
  | .num n => toString n
  | .str s => "\"" ++ escapeString s ++ "\""
  | .arr es => "[" ++ renderList es ++ "]"
  | .obj ms => "\x7b" ++ renderMembers ms ++ "\x7d"

/-- Comma-separated rendering of array elements. -/
def renderList : List Json → String
  | [] => ""
  | [j] => Json.render j
  | j :: j' :: rest => Json.render j ++ "," ++ renderList (j' :: rest)

/-- Comma-separated rendering of object members. -/
def renderMembers : List (String × Json) → String
  | [] => ""
  | [(k, v)] => "\"" ++ escapeString k ++ "\":" ++ Json.render v
  | (k, v) :: m :: rest =>
    "\"" ++ escapeString k ++ "\":" ++ Json.render v ++ "," ++ renderMembers (m :: rest)

end

/-- JSON insignificant whitespace. -/
def skipWs (cs : List Char) : List Char :=
  cs.dropWhile (fun c => c = ' ' || c = '\n' || c = '\t' || c = '\r')

/-- Decimal digits to a natural number. -/
def digitsToNat (ds : List Char) : Nat :=
  ds.foldl (fun a c => a * 10 + (c.toNat - 48)) 0

/-- Value of one hex digit. -/
def hexVal (c : Char) : Option Nat :=
  if '0' ≤ c ∧ c ≤ '9' then some (c.toNat - 48)
  else if 'a' ≤ c ∧ c ≤ 'f' then some (c.toNat - 87)
  else if 'A' ≤ c ∧ c ≤ 'F' then some (c.toNat - 55)
  else none

/-- Parse the remainder of a JSON string literal (after the opening quote),
accumulating decoded characters in reverse. -/
def parseStringAux : List Char → List Char → Option (String × List Char)
  | [], _ => none
  | '"' :: rest, acc => some (String.mk acc.reverse, rest)
  | '\\' :: '"' :: rest, acc => parseStringAux rest ('"' :: acc)
  | '\\' :: '\\' :: rest, acc => parseStringAux rest ('\\' :: acc)
  | '\\' :: '/' :: rest, acc => parseStringAux rest ('/' :: acc)
  | '\\' :: 'b' :: rest, acc => parseStringAux rest (Char.ofNat 8 :: acc)
  | '\\' :: 'f' :: rest, acc => parseStringAux rest (Char.ofNat 12 :: acc)
  | '\\' :: 'n' :: rest, acc => parseStringAux rest (Char.ofNat 10 :: acc)
  | '\\' :: 'r' :: rest, acc => parseStringAux rest (Char.ofNat 13 :: acc)
  | '\\' :: 't' :: rest, acc => parseStringAux rest (Char.ofNat 9 :: acc)
  | '\\' :: 'u' :: h1 :: h2 :: h3 :: h4 :: rest, acc =>
    (match hexVal h1, hexVal h2, hexVal h3, hexVal h4 with
     | some a, some b, some c, some d =>
       parseStringAux rest (Char.ofNat (((a * 16 + b) * 16 + c) * 16 + d) :: acc)
     | _, _, _, _ => none)
  | '\\' :: _, _ => none
  | c :: rest, acc => parseStringAux rest (c :: acc)

/-- Parse the digits of a JSON number (integers only; the modelled config
fields never carry fractions or exponents, which the model rejects). -/
def parseNumRest (cs : List Char) : Option (Int × List Char) :=
  let ds := cs.takeWhile Char.isDigit
  let rest := cs.dropWhile Char.isDigit
  if ds = [] then none
  else
    match rest with
    | '.' :: _ => none
    | 'e' :: _ => none
    | 'E' :: _ => none
    | _ => some ((digitsToNat ds : Int), rest)

mutual

/-- Fuel-indexed JSON value parser, modelling `serde_json::from_reader`'s
grammar on the documents the program handles. -/
def parseValue : Nat → List Char → Option (Json × List Char)
  | 0, _ => none
  | Nat.succ fuel, cs =>
    match skipWs cs with
    | 'n' :: 'u' :: 'l' :: 'l' :: rest => some (.null, rest)
    | 't' :: 'r' :: 'u' :: 'e' :: rest => some (.bool true, rest)
    | 'f' :: 'a' :: 'l' :: 's' :: 'e' :: rest => some (.bool false, rest)
    | '"' :: rest =>
      (match parseStringAux rest [] with
       | some (s, rest') => some (.str s, rest')
       | none => none)
    | '[' :: rest =>
      (match skipWs rest with
       | ']' :: rest' => some (.arr [], rest')
       | _ =>
         match parseElems fuel (skipWs rest) with
         | some (es, rest') => some (.arr es, rest')
         | none => none)
    | '\x7b' :: rest =>
      (match skipWs rest with
       | '\x7d' :: rest' => some (.obj [], rest')
       | _ =>
         match parseMembers fuel (skipWs rest) with
         | some (ms, rest') => some (.obj ms, rest')
         | none => none)
    | '-' :: rest =>
      (match parseNumRest rest with
       | some (n, rest') => some (.num (-n), rest')
       | none => none)
    | cs' =>
      (match parseNumRest cs' with
       | some (n, rest') => some (.num n, rest')
       | none => none)

/-- Parse the non-empty element list of a JSON array. -/
def parseElems : Nat → List Char → Option (List Json × List Char)
  | 0, _ => none
  | Nat.succ fuel, cs =>
    match parseValue fuel cs with
    | some (v, rest) =>
      (match skipWs rest with
       | ',' :: rest' =>
         (match parseElems fuel rest' with
          | some (vs, rest'') => some (v :: vs, rest'')
          | none => none)
       | ']' :: rest' => some ([v], rest')
       | _ => none)
    | none => none

/-- Parse the non-empty member list of a JSON object. -/
def parseMembers : Nat → List Char → Option (List (String × Json) × List Char)
  | 0, _ => none
  | Nat.succ fuel, cs =>
    match skipWs cs with
    | '"' :: rest =>
      (match parseStringAux rest [] with
       | some (k, rest') =>
         (match skipWs rest' with
          | ':' :: rest'' =>
            (match parseValue fuel rest'' with
             | some (v, rest3) =>
               (match skipWs rest3 with
                | ',' :: rest4 =>
                  (match parseMembers fuel rest4 with
                   | some (ms, rest5) => some ((k, v) :: ms, rest5)
                   | none => none)
                | '\x7d' :: rest4 => some ([(k, v)], rest4)
                | _ => none)
             | none => none)
          | _ => none)
       | none => none)
    | _ => none

end

/-- Parse a whole JSON document; like `serde_json::from_reader`, trailing
content after the value (other than whitespace) is a parse error. -/
def parseJson (s : String) : Option Json :=
  match parseValue (s.data.length + 1) s.data with
  | some (v, rest) => if skipWs rest = [] then some v else none
  | none => none

/-- Association-list lookup keyed by strings; models `HashMap::get`. -/
def alookup {α : Type} : List (String × α) → String → Option α
  | [], _ => none
  | (k', v) :: rest, k => if k' = k then some v else alookup rest k

/-- Association-list insert keyed by strings; models `HashMap::insert`
(replace the value of an existing key, otherwise add the binding). -/
def ainsert {α : Type} : List (String × α) → String → α → List (String × α)
  | [], k, v => [(k, v)]
  | (k', v') :: rest, k, v =>
    if k' = k then (k', v) :: rest else (k', v') :: ainsert rest k v

/-- Collapse parsed object members into a map, last binding of a key wins,
as deserializing into a `HashMap` does. -/
def objToMap (ms : List (String × Json)) : List (String × Json) :=
  ms.foldl (fun acc kv => ainsert acc kv.1 kv.2) []

/-- Error kinds of the `common` error module as the three source files use
them.  `Upstream` is the kind produced by `upstream_with_context`, which
wraps a lower-level (I/O, parse, URL) error with a context message;
`NotFound`/`InvParam` are produced explicitly by `Error::with_context`;
`Displayed` is the already-reported sentinel from `Error::displayed()`. -/
inductive ErrorKind where
  | NotFound : ErrorKind
  | InvParam : ErrorKind
  | Upstream : ErrorKind
  | Displayed : ErrorKind
deriving DecidableEq

/-- An error value: a kind plus a context message (the model keeps the
message's dynamic parts in concatenated form; `{:?}` debug payloads are
rendered with `Json.render`). -/
structure Error where
  kind : ErrorKind
  msg : String
deriving DecidableEq

/-- `Error::displayed()`. -/
def Error.displayed : Error := ⟨.Displayed, ""⟩

/-- `upstream_with_context(ctx)`. -/
def Error.upstream (msg : String) : Error := ⟨.Upstream, msg⟩

/-- `Error::with_context(kind, ctx)`. -/
def Error.with_context (kind : ErrorKind) (msg : String) : Error := ⟨kind, msg⟩

/-- Kind of an error result, if it is one. -/
def resKind {α : Type} : Except Error α → Option ErrorKind
  | .error e => some e.kind
  | .ok _ => none

/-- True when the result is an error. -/
def isErr {α : Type} : Except Error α → Bool
  | .error _ => true
  | .ok _ => false

/-- The parsed balena `config.json` record (`balena_cfg_json.rs:17`). -/
structure BalenaCfgJson where
  config : List (String × Json)
  file : String
  modified : Bool

/-- File-system state and path oracles for the operations `BalenaCfgJson`
performs: stored file contents (as text), a canonicalization oracle
(`Path::canonicalize` can fail, e.g. on dangling paths), and an open oracle
(`OpenOptions::open` can fail). -/
structure FileSys where
  files : List (String × String)
  canon : String → Option String
  openOk : String → Bool

/-- `BalenaCfgJson::new` (`balena_cfg_json.rs:24`): canonicalize the path,
open the file, deserialize JSON into the config map.  Deserializing into
`HashMap<String, Value>` requires a top-level object. -/
def BalenaCfgJson.new (fs : FileSys) (cfgFile : String) : Except Error BalenaCfgJson :=
  match fs.canon cfgFile with
  | none => .error (Error.upstream ("Failed to canonicalize path: '" ++ cfgFile ++ "'"))
  | some canonFile =>
    match alookup fs.files canonFile with
    | none => .error (Error.upstream ("new: cannot open file '" ++ canonFile ++ "'"))
    | some content =>
      match parseJson content with
      | some (Json.obj ms) =>
        .ok { config := objToMap ms, file := canonFile, modified := false }
      | _ => .error (Error.upstream ("Failed to parse json from file '" ++ canonFile ++ "'"))

/-- `BalenaCfgJson::write` (`balena_cfg_json.rs:49`): open the target with
`create(true).write(true)` — creating it if absent but NOT truncating an
existing file, so the serialized bytes overwrite the old content only up to
the serialized length and any longer remainder survives — then serialize the
config map, clear `modified`, and canonicalize the target into `file`.
Returns the updated file system, the updated record, and the result. -/
def BalenaCfgJson.write (self : BalenaCfgJson) (fs : FileSys) (targetPath : String) :
    FileSys × BalenaCfgJson × Except Error Unit :=
  if fs.openOk targetPath then
    let rendered := Json.render (Json.obj self.config)
    let newContent :=
      match alookup fs.files targetPath with
      | some old => rendered ++ String.mk (old.data.drop rendered.data.length)
      | none => rendered
    let fs' : FileSys := { fs with files := ainsert fs.files targetPath newContent }
    let self' : BalenaCfgJson := { self with modified := false }
    match fs.canon targetPath with
    | some canonPath => (fs', { self' with file := canonPath }, .ok ())
    | none =>
      (fs', self',
       .error (Error.upstream ("Failed to canonicalize path: '" ++ targetPath ++ "'")))
  else
    (fs, self,
     .error (Error.upstream ("Failed to open file for writing: '" ++ targetPath ++ "'")))

/-- `Value::as_str`. -/
def Json.as_str : Json → Option String
  | .str s => some s
  | _ => none

/-- `Value::as_u64`: some exactly for integer values in `[0, 2^64)`
(`18446744073709551616 = 2^64`). -/
def Json.as_u64 : Json → Option Nat
  | .num n => if 0 ≤ n ∧ n < (18446744073709551616 : Int) then some n.toNat else none
  | _ => none

/-- Strip one leading `+` sign, as Rust's unsigned `from_str` accepts. -/
def stripPlus (cs : List Char) : List Char :=
  match cs with
  | '+' :: rest => rest
  | cs => cs

/-- Rust's `str::parse::<u64>()`: an optional leading `+`, then one or more
decimal digits, rejecting overflow past `2^64 - 1`
(`18446744073709551616 = 2^64`). -/
def parseU64 (s : String) : Option Nat :=
  if stripPlus s.data ≠ [] ∧ (stripPlus s.data).all Char.isDigit then
    if digitsToNat (stripPlus s.data) < 18446744073709551616 then
      some (digitsToNat (stripPlus s.data))
    else none
  else none

/-- `BalenaCfgJson::get_str_val` (`balena_cfg_json.rs:140`). -/
def BalenaCfgJson.get_str_val (self : BalenaCfgJson) (name : String) : Except Error String :=
  match alookup self.config name with
  | some value =>
    (match value.as_str with
     | some s => .ok s
     | none =>
       .error (Error.with_context .InvParam
         ("Invalid type encountered for '" ++ name ++ "', expected String, found " ++
          value.render ++ " in config.json")))
  | none =>
    .error (Error.with_context .NotFound
      ("Key could not be found in config.json: '" ++ name ++ "'"))

/-- `BalenaCfgJson::get_uint_val` (`balena_cfg_json.rs:161`): a `u64` value
is returned as is; a string value is coerced with `str::parse::<u64>`, whose
failure is wrapped by `upstream_with_context` (kind `Upstream`); any other
type is an `InvParam` error; a missing key is `NotFound`. -/
def BalenaCfgJson.get_uint_val (self : BalenaCfgJson) (name : String) : Except Error Nat :=
  match alookup self.config name with
  | some value =>
    (match value.as_u64 with
     | some v => .ok v
     | none =>
       match value.as_str with
       | some strVal =>
         (match parseU64 strVal with
          | some v => .ok v
          | none =>
            .error (Error.upstream
              ("Failed to parse uint value for '" ++ name ++ "' from config.json")))
       | none =>
         .error (Error.with_context .InvParam
           ("Invalid type encountered for '" ++ name ++ "', expected uint, found " ++
            value.render)))
  | none =>
    .error (Error.with_context .NotFound
      ("Key could not be found in config.json: '" ++ name ++ "'"))

/-- `BalenaCfgJson::set_host_name` (`balena_cfg_json.rs:191`): set the
`modified` flag, insert `hostname`, and return the `to_string()` rendering of
the previous value when one was replaced (`HashMap::insert`'s return). -/
def BalenaCfgJson.set_host_name (self : BalenaCfgJson) (hostname : String) :
    BalenaCfgJson × Option String :=
  ({ self with
      modified := true,
      config := ainsert self.config "hostname" (Json.str hostname) },
   (alookup self.config "hostname").map Json.render)

/-- `BalenaCfgJson::get_app_id`. -/
def BalenaCfgJson.get_app_id (self : BalenaCfgJson) : Except Error Nat :=
  self.get_uint_val "applicationId"

/-- `BalenaCfgJson::get_api_key`. -/
def BalenaCfgJson.get_api_key (self : BalenaCfgJson) : Except Error String :=
  self.get_str_val "apiKey"

/-- `BalenaCfgJson::get_api_endpoint`. -/
def BalenaCfgJson.get_api_endpoint (self : BalenaCfgJson) : Except Error String :=
  self.get_str_val "apiEndpoint"

/-- `BalenaCfgJson::get_vpn_endpoint`. -/
def BalenaCfgJson.get_vpn_endpoint (self : BalenaCfgJson) : Except Error String :=
  self.get_str_val "vpnEndpoint"

/-- `BalenaCfgJson::get_vpn_port` — note the `u64` result type
(`get_uint_val`), not a 16-bit one. -/
def BalenaCfgJson.get_vpn_port (self : BalenaCfgJson) : Except Error Nat :=
  self.get_uint_val "vpnPort"

/-- `BalenaCfgJson::get_device_type`. -/
def BalenaCfgJson.get_device_type (self : BalenaCfgJson) : Except Error String :=
  self.get_str_val "deviceType"

/-- Modelled from the spec: the `Options` record is built by the
command-line parser, which is not under `src/`.  Per spec §3 it carries
independent feature toggles for the API reachability check, the VPN
reachability check and the force flag, plus the connect timeout; `check`
reads them through `is_api_check`, `is_vpn_check` and `get_check_timeout`. -/
structure Options where
  isApiCheck : Bool
  isVpnCheck : Bool
  isForce : Bool
  checkTimeout : Nat

/-- The `Device` trait surface `check` consumes
(`stage1::device::Device`). -/
structure Device where
  supportsDeviceType : String → Bool
  deviceTypeName : String

/-- The parts of a parsed `url::Url` that `check` reads. -/
structure UrlParts where
  host : Option String
  port : Option Nat

/-- Network oracles: URL parsing (the external `url` crate) and the outcome
of `check_tcp_connect` per host and port. -/
structure Net where
  parseUrl : String → Option UrlParts
  tcpConnect : String → Nat → Bool

/-- `BALENA_API_PORT` (`balena_cfg_json.rs:14`). -/
def BALENA_API_PORT : Nat := 80

/-- `BalenaCfgJson::check` (`balena_cfg_json.rs:74`): log the application
id (failing if `applicationId` is unreadable), validate the device type
(else `Error::displayed`), then — when enabled — probe the API endpoint URL
and the VPN endpoint.  A failed TCP connect is always an error
(`Error::displayed()`); the function never consults the force flag.  The
VPN port is the `u64` accessor value truncated with `as u16`, modelled by
`% 65536`. -/
def BalenaCfgJson.check (self : BalenaCfgJson) (opts : Options) (device : Device)
    (net : Net) : Except Error Unit :=
  match self.get_app_id with
  | .error e => .error e
  | .ok _appId =>
    match self.get_device_type with
    | .error e => .error e
    | .ok deviceType =>
      if device.supportsDeviceType deviceType = false then
        .error Error.displayed
      else
        let apiStep : Except Error Unit :=
          if opts.isApiCheck then
            match self.get_api_endpoint with
            | .error e => .error e
            | .ok apiEndpoint =>
              match net.parseUrl apiEndpoint with
              | none =>
                .error (Error.upstream
                  ("Failed to parse balena api url '" ++ apiEndpoint ++ "'"))
              | some apiUrl =>
                match apiUrl.host with
                | some apiHost =>
                  let apiPort :=
                    match apiUrl.port with
                    | some p => p
                    | none => BALENA_API_PORT
                  if net.tcpConnect apiHost apiPort then .ok ()
                  else .error Error.displayed
                | none => .error Error.displayed
          else .ok ()
        match apiStep with
        | .error e => .error e
        | .ok _ =>
          if opts.isVpnCheck then
            match self.get_vpn_endpoint with
            | .error e => .error e
            | .ok vpnEndpoint =>
              match self.get_vpn_port with
              | .error e => .error e
              | .ok vpnPort64 =>
                let vpnPort := vpnPort64 % 65536
                if net.tcpConnect vpnEndpoint vpnPort then .ok ()
                else .error Error.displayed
          else .ok ()

/-- `BalenaCfgJson::is_modified`. -/
def BalenaCfgJson.is_modified (self : BalenaCfgJson) : Bool :=
  self.modified

/-- `BalenaCfgJson::get_path`. -/
def BalenaCfgJson.get_path (self : BalenaCfgJson) : String :=
  self.file

/-! ### Assets (`src/migrator/stage1/assets.rs`) -/

/-- `OSArch` values used by `Assets`. -/
inductive OSArch where
  | ARMHF : OSArch
  | AMD64 : OSArch
deriving DecidableEq

/-- The compile-time `cfg!(target_arch = ...)` dispatch of `Assets::new`,
modelled as an explicit value for the running architecture. -/
inductive TargetArch where
  | arm : TargetArch
  | x86_64 : TargetArch
  | other : TargetArch
deriving DecidableEq

/-- Modelled from the spec: the embedded busybox blob bytes
(`include_bytes!("../../../assets/armv7/busybox")`) are not part of the
source excerpt; per spec §3/§8 each supported architecture carries a
non-empty static shell blob whose first bytes are a known executable magic
(an ELF header). -/
def RPI3_BUSYBOX : List Nat :=
  [0x7f, 0x45, 0x4c, 0x46, 0x01, 0x01, 0x01, 0x00, 0x02, 0x00, 0x28, 0x00]

/-- Modelled from the spec: the x86-64 busybox blob, as `RPI3_BUSYBOX`. -/
def X86_64_BUSYBOX : List Nat :=
  [0x7f, 0x45, 0x4c, 0x46, 0x02, 0x01, 0x01, 0x00, 0x02, 0x00, 0x3e, 0x00]

/-- The four ELF magic bytes, the known executable magic of the blobs. -/
def elfMagic : List Nat := [0x7f, 0x45, 0x4c, 0x46]

/-- The `Assets` record (`assets.rs:35`). -/
structure Assets where
  arch : OSArch
  busybox : List Nat
deriving DecidableEq

/-- `MigErrorKind`: the error kinds of the asset/main modules; the excerpt
uses `Displayed` and `CmdIO`, the rest are the kinds the spec §7 lists. -/
inductive MigErrorKind where
  | UnsupportedArchitecture : MigErrorKind
  | UnsupportedDevice : MigErrorKind
  | InvalidParameter : MigErrorKind
  | NotFound : MigErrorKind
  | Io : MigErrorKind
  | Subprocess : MigErrorKind
  | Network : MigErrorKind
  | PivotFailed : MigErrorKind
  | WriteVerify : MigErrorKind
  | Displayed : MigErrorKind
  | CmdIO : MigErrorKind
deriving DecidableEq

/-- Result of running `Assets::new`: either a constructed value, a typed
error (which the function never actually produces — the constructor exists
to express what the spec's `UnsupportedArchitecture` failure would be), or
a process abort via `panic!` with its message. -/
inductive NewResult where
  | ok (a : Assets) : NewResult
  | err (e : MigErrorKind) : NewResult
  | panicked (msg : String) : NewResult
deriving DecidableEq

/-- `Assets::new` (`assets.rs:41`): pick the blob matching the running
architecture; any other architecture hits the `panic!` branch
(`assets.rs:53`). -/
def Assets.new : TargetArch → NewResult
  | .arm => .ok ⟨.ARMHF, RPI3_BUSYBOX⟩
  | .x86_64 => .ok ⟨.AMD64, X86_64_BUSYBOX⟩
  | .other =>
    .panicked "No assets are provided in binary - please compile with device feature"

/-- `Assets::busybox_size`. -/
def Assets.busybox_size (a : Assets) : Nat :=
  a.busybox.length

/-- Prefix test on character lists (the matching step of Rust's
`str::replace` scanning). -/
def isPre : List Char → List Char → Bool
  | [], _ => true
  | _ :: _, [] => false
  | c :: p, d :: s => c == d && isPre p s

/-- Fuel-indexed worker for `replaceAll`; each step consumes at least one
character of `s` and one unit of fuel, so fuel `s.length` is always enough
(the fuel-exhausted branch is unreachable then and returns the rest
unchanged). -/
def replaceAllGo : Nat → List Char → List Char → List Char → List Char
  | _, [], _, _ => []
  | 0, c :: rest, _, _ => c :: rest
  | Nat.succ fuel, c :: rest, pat, rep =>
    if pat ≠ [] ∧ isPre pat (c :: rest) = true then
      rep ++ replaceAllGo fuel ((c :: rest).drop pat.length) pat rep
    else
      c :: replaceAllGo fuel rest pat rep

/-- Rust's `str::replace`: replace every leftmost non-overlapping
occurrence of `pat` in `s` by `rep`; occurrences are found in the scanned
string only, never inside already-substituted replacement text. -/
def replaceAll (s pat rep : List Char) : List Char :=
  replaceAllGo s.length s pat rep

/-- Substring occurrence test. -/
def containsSub (s pat : List Char) : Bool :=
  match s with
  | [] => isPre pat []
  | _ :: rest => isPre pat s || containsSub rest pat

/-- `segSafe u pat`: no position of `u` can start a match of `pat`
regardless of what text follows `u`: at every suffix of `u`, `pat` does not
match there and the suffix is not itself a potential start (a prefix) of
`pat`. -/
def segSafe (u pat : List Char) : Bool :=
  match u with
  | [] => true
  | c :: rest => !(isPre pat (c :: rest)) && !(isPre (c :: rest) pat) && segSafe rest pat

/-- `InOrder s frags`: the fragments occur in `s` disjointly, in the given
order. -/
def InOrder : List Char → List (List Char) → Prop
  | _, [] => True
  | s, f :: fs => ∃ u v, s = u ++ f ++ v ∧ InOrder v fs

/-- `log::Level` with its `Display` rendering (upper-case level names). -/
inductive Level where
  | error : Level
  | warn : Level
  | info : Level
  | debug : Level
  | trace : Level
deriving DecidableEq

/-- `Level`'s `Display`/`as_str` text. -/
def levelStr : Level → String
  | .error => "ERROR"
  | .warn => "WARN"
  | .info => "INFO"
  | .debug => "DEBUG"
  | .trace => "TRACE"

/-- `STAGE2_SCRIPT` (`assets.rs:20`): the pivot-script template with the
three slot markers `__TO__`, `__TTY__` and `__LOG_LEVEL__`. -/
def STAGE2_SCRIPT : String :=
  "#!__TO__/busybox sh\necho \"takeover init started\"\nif [ -f \"__TO____TTY__\" ]; then \n  exec <\"__TO____TTY__\" >\"__TO____TTY__\" 2>\"__TO____TTY__\"\nfi\ncd \"__TO__\"\necho \"Init takeover successful\"\necho \"Pivoting root...\"\nmount --make-rprivate /\npivot_root . mnt/old_root\necho \"Chrooting and running init...\"\nexec ./busybox chroot . /takeover --init --s2-log-level __LOG_LEVEL__\n"

/-- The template as a character list. -/
def stage2Template : List Char := STAGE2_SCRIPT.data

/-- The `__TO__` slot marker. -/
def toMarker : List Char := "__TO__".data

/-- The `__TTY__` slot marker. -/
def ttyMarker : List Char := "__TTY__".data

/-- The `__LOG_LEVEL__` slot marker. -/
def logMarker : List Char := "__LOG_LEVEL__".data

/-- The script text computed by `Assets::write_stage2_script`
(`assets.rs:63-65`): three successive literal `str::replace` substitutions
on the template (`__TO__` with the staged root, then `__TTY__` with the TTY
path, then `__LOG_LEVEL__` with the rendered log level). -/
def renderStage2Script (toDir tty : String) (logLevel : Level) : List Char :=
  let s1 := replaceAll stage2Template toMarker toDir.data
  let s2 := replaceAll s1 ttyMarker tty.data
  replaceAll s2 logMarker (levelStr logLevel).data

/-- Template chunk: the shebang lead-in. -/
def chunk1 : List Char := "#!".data

/-- Template chunk: from the shebang tail to the `if` test lead-in. -/
def chunk2pre : List Char := "/busybox sh\necho \"takeover init started\"\n".data

/-- Template chunk: the `if [ -f "` test opener. -/
def chunkIfF : List Char := "if [ -f \"".data

/-- Template chunk: text between the first and second `__TO__`. -/
def chunk2 : List Char := chunk2pre ++ chunkIfF

/-- Template chunk: after the tested TTY path, up to the redirect. -/
def chunk3 : List Char := "\" ]; then \n  ".data

/-- Template chunk: the stdin-redirect opener. -/
def chunk4 : List Char := "exec <\"".data

/-- Template chunk: between stdin and stdout redirects. -/
def chunk5 : List Char := "\" >\"".data

/-- Template chunk: between stdout and stderr redirects. -/
def chunk6 : List Char := "\" 2>\"".data

/-- Template chunk: closing quote of the last redirect. -/
def chunk7a : List Char := "\"".data

/-- Template chunk: end of the conditional block. -/
def chunk7b : List Char := "\nfi\n".data

/-- Template chunk: redirect close plus `fi`. -/
def chunk7 : List Char := chunk7a ++ chunk7b

/-- Template chunk: the `cd` command opener. -/
def chunk8 : List Char := "cd \"".data

/-- Template chunk: quote and newline closing the `cd` argument. -/
def chunk9a : List Char := "\"\n".data

/-- Template chunk: the two progress `echo` lines. -/
def chunk9b : List Char :=
  "echo \"Init takeover successful\"\necho \"Pivoting root...\"\n".data

/-- Template chunk: text after the `cd` slot. -/
def chunk9 : List Char := chunk9a ++ chunk9b

/-- Template chunk: the mount-propagation command. -/
def chunk10 : List Char := "mount --make-rprivate /".data

/-- Template chunk: line break. -/
def chunk11 : List Char := "\n".data

/-- Template chunk: the pivot command. -/
def chunk12 : List Char := "pivot_root . mnt/old_root".data

/-- Template chunk: the chroot progress line. -/
def chunk13 : List Char := "\necho \"Chrooting and running init...\"\n".data

/-- Template chunk: the re-exec command up to its `--init` selector. -/
def chunk14 : List Char := "exec ./busybox chroot . /takeover --init".data

/-- Template chunk: the log-level option lead-in. -/
def chunk15 : List Char := " --s2-log-level ".data

/-- Template chunk: trailing newline. -/
def chunk16 : List Char := "\n".data

/-- Script fragment (claim step a): the whole conditional stdio-redirect
block, `if [ -f "TO TTY" ]; then exec <"TO TTY" >"TO TTY" 2>"TO TTY"` with
the closing quote, for staged root `a` and TTY path `b`. -/
def fragRedirect (a b : List Char) : List Char :=
  chunkIfF ++ a ++ b ++ chunk3 ++ chunk4 ++ a ++ b ++ chunk5 ++ a ++ b ++
    chunk6 ++ a ++ b ++ chunk7a

/-- Script fragment (claim step b): `cd "TO"` with its closing quote and
newline. -/
def fragCd (a : List Char) : List Char := chunk8 ++ a ++ chunk9a

/-- Script fragment (claim step c): `mount --make-rprivate /`. -/
def fragPrivate : List Char := chunk10

/-- Script fragment (claim step d): `pivot_root . mnt/old_root`. -/
def fragPivot : List Char := chunk12

/-- Script fragment (claim step e): `exec ./busybox chroot . /takeover
--init`, the re-exec in chroot with the Init phase selector. -/
def fragExecInit : List Char := chunk14

/-! ### The entry point (`src/bin/takeover.rs`) -/

/-- An error of the `main`-facing error type, carrying its kind. -/
structure MigError where
  kind : MigErrorKind
deriving DecidableEq

/-- Modelled from the spec: the phase-selector flags of the parsed
`Options` (`opts.is_stage2()` / `opts.is_init()`); the command-line parser
is out of scope, spec §6 defines `--stage2` and `--init` as the re-exec
selectors. -/
structure MainOptions where
  isStage2 : Bool
  isInit : Bool

/-- Environment of one `main` run: the outcomes of the logger-setup calls
and of `stage1`.  The post-pivot phase functions `stage2(opts)` and
`init(&opts)` return `()`; `main` then calls `exit(1)`. -/
structure MainEnv where
  setLogDestOk : Bool
  setLogFileOk : Bool
  stage1Result : Except MigError Unit

/-- Observable outcome of `main`: the exit code, whether the stage-1 error
was logged by the `error!` at `takeover.rs:48`, and whether `Logger::flush`
ran. -/
structure MainOutcome where
  exitCode : Nat
  loggedStage1Error : Bool
  flushed : Bool
deriving DecidableEq

/-- `main` (`src/bin/takeover.rs:10`): dispatch on the phase selectors.
Stage-2 and init runs end in `exit(1)` (also when their logger setup
fails); a stage-1 error is logged unless its kind is `Displayed`, the log
is flushed, and the process exits 1; only a clean stage-1 run reaches the
final flush and implicit exit 0. -/
def mainRun (opts : MainOptions) (env : MainEnv) : MainOutcome :=
  if opts.isStage2 then
    if env.setLogDestOk = false then ⟨1, false, false⟩
    else ⟨1, false, false⟩
  else if opts.isInit then
    if env.setLogDestOk = false then ⟨1, false, false⟩
    else ⟨1, false, false⟩
  else
    if env.setLogFileOk = false then ⟨1, false, false⟩
    else
      match env.stage1Result with
      | .error why =>
        { exitCode := 1,
          loggedStage1Error :=
            (match why.kind with
             | .Displayed => false
             | _ => true),
          flushed := true }
      | .ok _ => ⟨0, false, true⟩

/-! ### Concrete instances used by the claim theorems and witnesses -/

/-- A fully populated, well-typed config record. -/
def cfgNet : BalenaCfgJson :=
  ⟨[("applicationId", Json.num 1234567),
    ("apiKey", Json.str "0123456789abcdef"),
    ("apiEndpoint", Json.str "https://api.balena-cloud.com"),
    ("vpnEndpoint", Json.str "vpn.balena-cloud.com"),
    ("vpnPort", Json.num 443),
    ("deviceType", Json.str "intel-nuc")],
   "/mnt/boot/config.json", false⟩

/-- Options with both network checks enabled and the force flag SET. -/
def optsForce : Options := ⟨true, true, true, 20⟩

/-- Options with only the VPN check enabled. -/
def optsVpnOnly : Options := ⟨false, true, false, 20⟩

/-- A device probe accepting every device type. -/
def devAny : Device := ⟨fun _ => true, "intel-nuc"⟩

/-- Network oracle in which every TCP connect fails; URL parsing resolves
the API endpoint's host with no explicit port. -/
def netDown : Net :=
  ⟨fun _ => some ⟨some "api.balena-cloud.com", none⟩, fun _ _ => false⟩

/-- Network oracle in which a TCP connect succeeds exactly on port 0. -/
def netPortZeroOnly : Net :=
  ⟨fun _ => some ⟨some "api.balena-cloud.com", none⟩, fun _ p => p == 0⟩

/-- Config whose `vpnPort` is the integer `65536 = 2^16`. -/
def cfgVpn65536 : BalenaCfgJson :=
  ⟨[("applicationId", Json.num 1234567),
    ("vpnEndpoint", Json.str "vpn.balena-cloud.com"),
    ("vpnPort", Json.num 65536),
    ("deviceType", Json.str "intel-nuc")],
   "/mnt/boot/config.json", false⟩

/-- Config whose `vpnPort` holds the non-numeric string `"abc"`. -/
def cfgBadVpnPort : BalenaCfgJson :=
  ⟨[("vpnPort", Json.str "abc")], "/mnt/boot/config.json", false⟩

/-- Config with no keys at all. -/
def cfgEmpty : BalenaCfgJson := ⟨[], "/mnt/boot/config.json", false⟩

/-- Config with type-mismatched values: a number where a string belongs and
a boolean where an unsigned integer belongs. -/
def cfgWrongTypes : BalenaCfgJson :=
  ⟨[("apiKey", Json.num 5), ("applicationId", Json.bool true)],
   "/mnt/boot/config.json", false⟩

/-- Source text of a valid one-field config payload. -/
def c2src : String := "\x7b\"deviceType\":\"intel-nuc\"\x7d"

/-- Sixty bytes of pre-existing content at the write target — longer than
the 46-byte serialized config. -/
def c2stale : String := String.mk (List.replicate 60 'x')

/-- File system for the round-trip runs: the source config plus a stale,
longer file already sitting at `/work/config.json`; canonicalization is the
identity and every open succeeds. -/
def c2fs0 : FileSys :=
  ⟨[("/mnt/boot/config.json", c2src), ("/work/config.json", c2stale)],
   fun p => some p, fun _ => true⟩

/-- The parsed config after `set_host_name "myhost"`. -/
def c2cfg1 : BalenaCfgJson :=
  ⟨[("deviceType", Json.str "intel-nuc"), ("hostname", Json.str "myhost")],
   "/mnt/boot/config.json", true⟩

/-- File system on which canonicalization always fails but opens succeed. -/
def fsNoCanon : FileSys := ⟨[], fun _ => none, fun _ => true⟩

/-! ### String-replacement lemmas -/

theorem replaceAllGo_nil (fuel : Nat) (pat rep : List Char) :
    replaceAllGo fuel [] pat rep = [] := by
  cases fuel <;> rfl

theorem replaceAllGo_fuel (fuel : Nat) :
    ∀ (fuel' : Nat) (s pat rep : List Char), s.length ≤ fuel → s.length ≤ fuel' →
      replaceAllGo fuel s pat rep = replaceAllGo fuel' s pat rep := by
  induction fuel with
  | zero =>
    intro fuel' s pat rep h _
    have hs : s = [] := List.length_eq_zero.mp (Nat.le_zero.mp h)
    subst hs
    rw [replaceAllGo_nil, replaceAllGo_nil]
  | succ f ih =>
    intro fuel' s pat rep h h'
    cases s with
    | nil => rw [replaceAllGo_nil, replaceAllGo_nil]
    | cons cr rest =>
      cases fuel' with
      | zero => simp at h'
      | succ f' =>
        simp only [replaceAllGo]
        by_cases hc : pat ≠ [] ∧ isPre pat (cr :: rest) = true
        · rw [if_pos hc, if_pos hc]
          have hplen : 0 < pat.length := List.length_pos.mpr hc.1
          simp only [List.length_cons] at h h'
          have hlen : ((cr :: rest).drop pat.length).length ≤ f := by
            simp only [List.length_drop, List.length_cons]
            omega
          have hlen' : ((cr :: rest).drop pat.length).length ≤ f' := by
            simp only [List.length_drop, List.length_cons]
            omega
          rw [ih f' _ pat rep hlen hlen']
        · rw [if_neg hc, if_neg hc]
          simp only [List.length_cons] at h h'
          rw [ih f' rest pat rep (by omega) (by omega)]

theorem replaceAll_nil (pat rep : List Char) : replaceAll [] pat rep = [] := rfl

/-- One-step unfolding of `replaceAll` on a cons cell. -/
theorem replaceAll_cons (c : Char) (rest pat rep : List Char) :
    replaceAll (c :: rest) pat rep =
      if pat ≠ [] ∧ isPre pat (c :: rest) = true then
        rep ++ replaceAll ((c :: rest).drop pat.length) pat rep
      else
        c :: replaceAll rest pat rep := by
  show replaceAllGo (c :: rest).length (c :: rest) pat rep = _
  simp only [List.length_cons, replaceAllGo]
  by_cases hc : pat ≠ [] ∧ isPre pat (c :: rest) = true
  · rw [if_pos hc, if_pos hc]
    congr 1
    apply replaceAllGo_fuel
    · have hplen : 0 < pat.length := List.length_pos.mpr hc.1
      simp only [List.length_drop, List.length_cons]
      omega
    · exact Nat.le_refl _
  · rw [if_neg hc, if_neg hc]
    rfl

theorem isPre_self_append (p t : List Char) : isPre p (p ++ t) = true := by
  induction p with
  | nil => rfl
  | cons c rest ih => simp [isPre, ih]

theorem isPre_append_cases (p : List Char) (u t : List Char)
    (h : isPre p (u ++ t) = true) : isPre p u = true ∨ isPre u p = true := by
  induction u generalizing p with
  | nil => right; rfl
  | cons c u' ih =>
    cases p with
    | nil => left; rfl
    | cons d p' =>
      simp only [List.cons_append, isPre, Bool.and_eq_true, beq_iff_eq] at h
      obtain ⟨rfl, h2⟩ := h
      rcases ih p' h2 with h3 | h3
      · left; simp [isPre, h3]
      · right; simp [isPre, h3]

theorem segSafe_head (c : Char) (rest pat : List Char)
    (h : segSafe (c :: rest) pat = true) :
    isPre pat (c :: rest) = false ∧ isPre (c :: rest) pat = false ∧
      segSafe rest pat = true := by
  simp only [segSafe, Bool.and_eq_true, Bool.not_eq_true'] at h
  exact ⟨h.1.1, h.1.2, h.2⟩

/-- On a `segSafe` chunk, `replaceAll` finds no match and passes the chunk
through, whatever follows it. -/
theorem replaceAll_seg (u t pat rep : List Char) (h : segSafe u pat = true) :
    replaceAll (u ++ t) pat rep = u ++ replaceAll t pat rep := by
  induction u with
  | nil => rfl
  | cons c u' ih =>
    obtain ⟨h1, h2, h3⟩ := segSafe_head c u' pat h
    rw [List.cons_append, replaceAll_cons, if_neg]
    · rw [ih h3]
      rfl
    · intro hcon
      rcases isPre_append_cases pat (c :: u') t hcon.2 with hx | hx
      · rw [h1] at hx; exact absurd hx (by simp)
      · rw [h2] at hx; exact absurd hx (by simp)

/-- At an exact occurrence of the pattern, `replaceAll` substitutes the
replacement and continues after the occurrence. -/
theorem replaceAll_hit (t pat rep : List Char) (h : pat ≠ []) :
    replaceAll (pat ++ t) pat rep = rep ++ replaceAll t pat rep := by
  cases pat with
  | nil => exact absurd rfl h
  | cons p ps =>
    rw [List.cons_append, replaceAll_cons, if_pos]
    · have hdrop : (p :: (ps ++ t)).drop (p :: ps).length = t := by
        rw [show p :: (ps ++ t) = (p :: ps) ++ t from rfl]
        exact List.drop_left _ _
      rw [hdrop]
    · exact ⟨List.cons_ne_nil _ _,
        by rw [show p :: (ps ++ t) = (p :: ps) ++ t from rfl];
           exact isPre_self_append _ _⟩

/-- A wholly `segSafe` string passes through `replaceAll` unchanged. -/
theorem replaceAll_keep (u pat rep : List Char) (h : segSafe u pat = true) :
    replaceAll u pat rep = u := by
  have h2 := replaceAll_seg u [] pat rep h
  rw [List.append_nil] at h2
  rw [h2, replaceAll_nil, List.append_nil]

/-- A chunk avoiding the pattern's head character is `segSafe`. -/
theorem segSafe_of_head_notMem (u pat : List Char) (hd : Char) (tl : List Char)
    (hp : pat = hd :: tl) (ha : hd ∉ u) : segSafe u pat = true := by
  subst hp
  induction u with
  | nil => rfl
  | cons c u' ih =>
    have hne : hd ≠ c := fun hcon => ha (hcon ▸ List.mem_cons_self c u')
    have hnotmem : hd ∉ u' := fun hmem => ha (List.mem_cons_of_mem c hmem)
    have hb : (hd == c) = false := beq_eq_false_iff_ne.mpr hne
    have hb' : (c == hd) = false := beq_eq_false_iff_ne.mpr (fun hcon => hne hcon.symm)
    simp only [segSafe, Bool.and_eq_true, Bool.not_eq_true']
    exact ⟨⟨by simp only [isPre, hb, Bool.false_and],
            by simp only [isPre, hb', Bool.false_and]⟩, ih hnotmem⟩

/-- `replaceAll` passes through a chunk that avoids the pattern's head. -/
theorem replaceAll_var (u t pat rep : List Char) (hd : Char) (tl : List Char)
    (hp : pat = hd :: tl) (ha : hd ∉ u) :
    replaceAll (u ++ t) pat rep = u ++ replaceAll t pat rep :=
  replaceAll_seg u t pat rep (segSafe_of_head_notMem u pat hd tl hp ha)

/-- Occurrence search skips over a `segSafe` chunk. -/
theorem containsSub_seg (u t pat : List Char) (h : segSafe u pat = true) :
    containsSub (u ++ t) pat = containsSub t pat := by
  induction u with
  | nil => rfl
  | cons c u' ih =>
    obtain ⟨h1, h2, h3⟩ := segSafe_head c u' pat h
    have hfirst : isPre pat (c :: (u' ++ t)) = false := by
      cases hx : isPre pat (c :: (u' ++ t)) with
      | false => rfl
      | true =>
        rcases isPre_append_cases pat (c :: u') t hx with h' | h'
        · rw [h1] at h'; exact absurd h' (by simp)
        · rw [h2] at h'; exact absurd h' (by simp)
    simp only [List.cons_append, containsSub, hfirst, Bool.false_or]
    exact ih h3

/-- Occurrence search skips over a chunk avoiding the pattern's head. -/
theorem containsSub_var (u t pat : List Char) (hd : Char) (tl : List Char)
    (hp : pat = hd :: tl) (ha : hd ∉ u) :
    containsSub (u ++ t) pat = containsSub t pat :=
  containsSub_seg u t pat (segSafe_of_head_notMem u pat hd tl hp ha)

/-- A `segSafe` string contains no occurrence of a nonempty pattern. -/
theorem containsSub_none (u pat : List Char) (h : segSafe u pat = true)
    (hne : pat ≠ []) : containsSub u pat = false := by
  have h2 := containsSub_seg u [] pat h
  rw [List.append_nil] at h2
  rw [h2]
  cases pat with
  | nil => exact absurd rfl hne
  | cons p ps => rfl

/-- Effect of the `__TO__` substitution on the template: the template text
splits exactly at its six `__TO__` occurrences, each replaced by `a`. -/
theorem step1_to (a : List Char) :
    replaceAll stage2Template toMarker a =
      chunk1 ++ (a ++ (chunk2 ++ (a ++ (ttyMarker ++ (chunk3 ++ (chunk4 ++
        (a ++ (ttyMarker ++ (chunk5 ++ (a ++ (ttyMarker ++ (chunk6 ++
        (a ++ (ttyMarker ++ (chunk7 ++ (chunk8 ++ (a ++ (chunk9 ++ (chunk10 ++
        (chunk11 ++ (chunk12 ++ (chunk13 ++ (chunk14 ++ (chunk15 ++
        (logMarker ++ chunk16))))))))))))))))))))))))) := by
  have e : stage2Template =
      chunk1 ++ (toMarker ++ (chunk2 ++ (toMarker ++ ((ttyMarker ++ chunk3) ++
        (chunk4 ++ (toMarker ++ ((ttyMarker ++ chunk5) ++ (toMarker ++
        ((ttyMarker ++ chunk6) ++ (toMarker ++ ((ttyMarker ++ chunk7) ++
        (chunk8 ++ (toMarker ++ (chunk9 ++ (chunk10 ++ (chunk11 ++ (chunk12 ++
        (chunk13 ++ (chunk14 ++ (chunk15 ++ (logMarker ++
        chunk16))))))))))))))))))))) := by decide
  rw [e]
  rw [replaceAll_seg chunk1 _ toMarker a (by decide)]
  rw [replaceAll_hit _ toMarker a (by decide)]
  rw [replaceAll_seg chunk2 _ toMarker a (by decide)]
  rw [replaceAll_hit _ toMarker a (by decide)]
  rw [replaceAll_seg (ttyMarker ++ chunk3) _ toMarker a (by decide)]
  rw [replaceAll_seg chunk4 _ toMarker a (by decide)]
  rw [replaceAll_hit _ toMarker a (by decide)]
  rw [replaceAll_seg (ttyMarker ++ chunk5) _ toMarker a (by decide)]
  rw [replaceAll_hit _ toMarker a (by decide)]
  rw [replaceAll_seg (ttyMarker ++ chunk6) _ toMarker a (by decide)]
  rw [replaceAll_hit _ toMarker a (by decide)]
  rw [replaceAll_seg (ttyMarker ++ chunk7) _ toMarker a (by decide)]
  rw [replaceAll_seg chunk8 _ toMarker a (by decide)]
  rw [replaceAll_hit _ toMarker a (by decide)]
  rw [replaceAll_keep _ toMarker a (by decide)]
  simp only [List.append_assoc]

/-- Effect of the `__TTY__` substitution on the once-substituted template,
for a staged-root path free of underscores. -/
theorem step2_tty (a b : List Char) (ha : '_' ∉ a) :
    replaceAll (replaceAll stage2Template toMarker a) ttyMarker b =
      chunk1 ++ (a ++ (chunk2 ++ (a ++ (b ++ (chunk3 ++ (chunk4 ++ (a ++ (b ++
        (chunk5 ++ (a ++ (b ++ (chunk6 ++ (a ++ (b ++ (chunk7 ++ (chunk8 ++
        (a ++ (chunk9 ++ (chunk10 ++ (chunk11 ++ (chunk12 ++ (chunk13 ++
        (chunk14 ++ (chunk15 ++ (logMarker ++ chunk16))))))))))))))))))))))))) := by
  rw [step1_to a]
  rw [replaceAll_seg chunk1 _ ttyMarker b (by decide)]
  rw [replaceAll_var a _ ttyMarker b '_' "_TTY__".data (by decide) ha]
  rw [replaceAll_seg chunk2 _ ttyMarker b (by decide)]
  rw [replaceAll_var a _ ttyMarker b '_' "_TTY__".data (by decide) ha]
  rw [replaceAll_hit _ ttyMarker b (by decide)]
  rw [replaceAll_seg chunk3 _ ttyMarker b (by decide)]
  rw [replaceAll_seg chunk4 _ ttyMarker b (by decide)]
  rw [replaceAll_var a _ ttyMarker b '_' "_TTY__".data (by decide) ha]
  rw [replaceAll_hit _ ttyMarker b (by decide)]
  rw [replaceAll_seg chunk5 _ ttyMarker b (by decide)]
  rw [replaceAll_var a _ ttyMarker b '_' "_TTY__".data (by decide) ha]
  rw [replaceAll_hit _ ttyMarker b (by decide)]
  rw [replaceAll_seg chunk6 _ ttyMarker b (by decide)]
  rw [replaceAll_var a _ ttyMarker b '_' "_TTY__".data (by decide) ha]
  rw [replaceAll_hit _ ttyMarker b (by decide)]
  rw [replaceAll_seg chunk7 _ ttyMarker b (by decide)]
  rw [replaceAll_seg chunk8 _ ttyMarker b (by decide)]
  rw [replaceAll_var a _ ttyMarker b '_' "_TTY__".data (by decide) ha]
  rw [replaceAll_keep _ ttyMarker b (by decide)]

/-- Effect of the `__LOG_LEVEL__` substitution on the twice-substituted
template, for staged-root and TTY paths free of underscores. -/
theorem step3_log (a b c : List Char) (ha : '_' ∉ a) (hb : '_' ∉ b) :
    replaceAll (replaceAll (replaceAll stage2Template toMarker a) ttyMarker b)
        logMarker c =
      chunk1 ++ (a ++ (chunk2 ++ (a ++ (b ++ (chunk3 ++ (chunk4 ++ (a ++ (b ++
        (chunk5 ++ (a ++ (b ++ (chunk6 ++ (a ++ (b ++ (chunk7 ++ (chunk8 ++
        (a ++ (chunk9 ++ (chunk10 ++ (chunk11 ++ (chunk12 ++ (chunk13 ++
        (chunk14 ++ (chunk15 ++ (c ++ chunk16))))))))))))))))))))))))) := by
  rw [step2_tty a b ha]
  rw [replaceAll_seg chunk1 _ logMarker c (by decide)]
  rw [replaceAll_var a _ logMarker c '_' "_LOG_LEVEL__".data (by decide) ha]
  rw [replaceAll_seg chunk2 _ logMarker c (by decide)]
  rw [replaceAll_var a _ logMarker c '_' "_LOG_LEVEL__".data (by decide) ha]
  rw [replaceAll_var b _ logMarker c '_' "_LOG_LEVEL__".data (by decide) hb]
  rw [replaceAll_seg chunk3 _ logMarker c (by decide)]
  rw [replaceAll_seg chunk4 _ logMarker c (by decide)]
  rw [replaceAll_var a _ logMarker c '_' "_LOG_LEVEL__".data (by decide) ha]
  rw [replaceAll_var b _ logMarker c '_' "_LOG_LEVEL__".data (by decide) hb]
  rw [replaceAll_seg chunk5 _ logMarker c (by decide)]
  rw [replaceAll_var a _ logMarker c '_' "_LOG_LEVEL__".data (by decide) ha]
  rw [replaceAll_var b _ logMarker c '_' "_LOG_LEVEL__".data (by decide) hb]
  rw [replaceAll_seg chunk6 _ logMarker c (by decide)]
  rw [replaceAll_var a _ logMarker c '_' "_LOG_LEVEL__".data (by decide) ha]
  rw [replaceAll_var b _ logMarker c '_' "_LOG_LEVEL__".data (by decide) hb]
  rw [replaceAll_seg chunk7 _ logMarker c (by decide)]
  rw [replaceAll_seg chunk8 _ logMarker c (by decide)]
  rw [replaceAll_var a _ logMarker c '_' "_LOG_LEVEL__".data (by decide) ha]
  rw [replaceAll_seg chunk9 _ logMarker c (by decide)]
  rw [replaceAll_seg chunk10 _ logMarker c (by decide)]
  rw [replaceAll_seg chunk11 _ logMarker c (by decide)]
  rw [replaceAll_seg chunk12 _ logMarker c (by decide)]
  rw [replaceAll_seg chunk13 _ logMarker c (by decide)]
  rw [replaceAll_seg chunk14 _ logMarker c (by decide)]
  rw [replaceAll_seg chunk15 _ logMarker c (by decide)]
  rw [replaceAll_hit _ logMarker c (by decide)]
  rw [replaceAll_keep _ logMarker c (by decide)]

/-- The fully substituted script, as `write_stage2_script` computes it, for
underscore-free staged-root and TTY paths. -/
theorem renderStage2Script_splice (toDir tty : String) (lvl : Level)
    (ha : '_' ∉ toDir.data) (hb : '_' ∉ tty.data) :
    renderStage2Script toDir tty lvl =
      chunk1 ++ (toDir.data ++ (chunk2 ++ (toDir.data ++ (tty.data ++ (chunk3 ++
        (chunk4 ++ (toDir.data ++ (tty.data ++ (chunk5 ++ (toDir.data ++
        (tty.data ++ (chunk6 ++ (toDir.data ++ (tty.data ++ (chunk7 ++
        (chunk8 ++ (toDir.data ++ (chunk9 ++ (chunk10 ++ (chunk11 ++
        (chunk12 ++ (chunk13 ++ (chunk14 ++ (chunk15 ++
        ((levelStr lvl).data ++ chunk16))))))))))))))))))))))))) :=
  step3_log toDir.data tty.data (levelStr lvl).data ha hb

/-- No occurrence of a pattern `m` survives in the spliced script when
every template chunk is `segSafe` for `m` and the three substituted values
avoid `m`'s head character. -/
theorem spliceNoMarker (a b c m : List Char) (hd : Char) (tl : List Char)
    (hm : m = hd :: tl) (ha : hd ∉ a) (hb : hd ∉ b) (hc : hd ∉ c)
    (h1 : segSafe chunk1 m = true) (h2 : segSafe chunk2 m = true)
    (h3 : segSafe chunk3 m = true) (h4 : segSafe chunk4 m = true)
    (h5 : segSafe chunk5 m = true) (h6 : segSafe chunk6 m = true)
    (h7 : segSafe chunk7 m = true) (h8 : segSafe chunk8 m = true)
    (h9 : segSafe chunk9 m = true) (h10 : segSafe chunk10 m = true)
    (h11 : segSafe chunk11 m = true) (h12 : segSafe chunk12 m = true)
    (h13 : segSafe chunk13 m = true) (h14 : segSafe chunk14 m = true)
    (h15 : segSafe chunk15 m = true) (h16 : segSafe chunk16 m = true) :
    containsSub
      (chunk1 ++ (a ++ (chunk2 ++ (a ++ (b ++ (chunk3 ++ (chunk4 ++ (a ++ (b ++
        (chunk5 ++ (a ++ (b ++ (chunk6 ++ (a ++ (b ++ (chunk7 ++ (chunk8 ++
        (a ++ (chunk9 ++ (chunk10 ++ (chunk11 ++ (chunk12 ++ (chunk13 ++
        (chunk14 ++ (chunk15 ++ (c ++ chunk16)))))))))))))))))))))))))) m =
      false := by
  rw [containsSub_seg chunk1 _ m h1]
  rw [containsSub_var a _ m hd tl hm ha]
  rw [containsSub_seg chunk2 _ m h2]
  rw [containsSub_var a _ m hd tl hm ha]
  rw [containsSub_var b _ m hd tl hm hb]
  rw [containsSub_seg chunk3 _ m h3]
  rw [containsSub_seg chunk4 _ m h4]
  rw [containsSub_var a _ m hd tl hm ha]
  rw [containsSub_var b _ m hd tl hm hb]
  rw [containsSub_seg chunk5 _ m h5]
  rw [containsSub_var a _ m hd tl hm ha]
  rw [containsSub_var b _ m hd tl hm hb]
  rw [containsSub_seg chunk6 _ m h6]
  rw [containsSub_var a _ m hd tl hm ha]
  rw [containsSub_var b _ m hd tl hm hb]
  rw [containsSub_seg chunk7 _ m h7]
  rw [containsSub_seg chunk8 _ m h8]
  rw [containsSub_var a _ m hd tl hm ha]
  rw [containsSub_seg chunk9 _ m h9]
  rw [containsSub_seg chunk10 _ m h10]
  rw [containsSub_seg chunk11 _ m h11]
  rw [containsSub_seg chunk12 _ m h12]
  rw [containsSub_seg chunk13 _ m h13]
  rw [containsSub_seg chunk14 _ m h14]
  rw [containsSub_seg chunk15 _ m h15]
  rw [containsSub_var c _ m hd tl hm hc]
  exact containsSub_none chunk16 m h16 (by rw [hm]; exact List.cons_ne_nil _ _)

/-- C5 counterexample: the claim as stated is false.  `to_dir = "x__TT"`
and `tty = "Y__q"` contain none of the three slot markers (nor does the
rendered log level `INFO`), yet the script produced by
`write_stage2_script`'s substitution still contains the literal marker
`__TTY__`: sequential `str::replace` re-forms it across the boundary of the
substituted values in the adjacent `__TO____TTY__` slots. -/
theorem stage2_script_marker_reappears :
    containsSub "x__TT".data toMarker = false ∧
    containsSub "x__TT".data ttyMarker = false ∧
    containsSub "x__TT".data logMarker = false ∧
    containsSub "Y__q".data toMarker = false ∧
    containsSub "Y__q".data ttyMarker = false ∧
    containsSub "Y__q".data logMarker = false ∧
    containsSub (levelStr Level.info).data toMarker = false ∧
    containsSub (levelStr Level.info).data ttyMarker = false ∧
    containsSub (levelStr Level.info).data logMarker = false ∧
    containsSub (renderStage2Script "x__TT" "Y__q" Level.info) ttyMarker = true := by
  decide

/-- C5 (amended): for all `to_dir` and `tty` whose string renderings
contain no underscore character (a sufficient condition ruling out marker
fragments recombining across substitution boundaries; the log-level
renderings are underscore-free), the script text produced by
`Assets::write_stage2_script` by literal string replacement of the three
markers in the template contains no remaining `__TO__`, `__TTY__` or
`__LOG_LEVEL__` slot marker. -/
theorem stage2_script_no_markers (toDir tty : String) (lvl : Level)
    (ha : '_' ∉ toDir.data) (hb : '_' ∉ tty.data) :
    containsSub (renderStage2Script toDir tty lvl) toMarker = false ∧
    containsSub (renderStage2Script toDir tty lvl) ttyMarker = false ∧
    containsSub (renderStage2Script toDir tty lvl) logMarker = false := by
  have hc : '_' ∉ (levelStr lvl).data := by cases lvl <;> decide
  rw [renderStage2Script_splice toDir tty lvl ha hb]
  refine ⟨?_, ?_, ?_⟩
  · exact spliceNoMarker toDir.data tty.data (levelStr lvl).data toMarker '_'
      "_TO__".data (by decide) ha hb hc (by decide) (by decide) (by decide)
      (by decide) (by decide) (by decide) (by decide) (by decide) (by decide)
      (by decide) (by decide) (by decide) (by decide) (by decide) (by decide)
      (by decide)
  · exact spliceNoMarker toDir.data tty.data (levelStr lvl).data ttyMarker '_'
      "_TTY__".data (by decide) ha hb hc (by decide) (by decide) (by decide)
      (by decide) (by decide) (by decide) (by decide) (by decide) (by decide)
      (by decide) (by decide) (by decide) (by decide) (by decide) (by decide)
      (by decide)
  · exact spliceNoMarker toDir.data tty.data (levelStr lvl).data logMarker '_'
      "_LOG_LEVEL__".data (by decide) ha hb hc (by decide) (by decide)
      (by decide) (by decide) (by decide) (by decide) (by decide) (by decide)
      (by decide) (by decide) (by decide) (by decide) (by decide) (by decide)
      (by decide) (by decide)

/-- Witness for the amended C5 theorem at concrete underscore-free paths. -/
theorem stage2_script_no_markers_witness :
    ('_' ∉ "/tkvr".data) ∧ ('_' ∉ "/dev/tty1".data) ∧
    (containsSub (renderStage2Script "/tkvr" "/dev/tty1" Level.info) toMarker = false ∧
     containsSub (renderStage2Script "/tkvr" "/dev/tty1" Level.info) ttyMarker = false ∧
     containsSub (renderStage2Script "/tkvr" "/dev/tty1" Level.info) logMarker = false) :=
  ⟨by decide, by decide,
   stage2_script_no_markers "/tkvr" "/dev/tty1" Level.info (by decide) (by decide)⟩

/-- Every string contains the empty pattern. -/
theorem containsSub_nil_pat (s : List Char) : containsSub s [] = true := by
  cases s with
  | nil => rfl
  | cons c rest => rfl

/-- Occurrence search is monotone under prepending. -/
theorem containsSub_append_of (u t pat : List Char)
    (h : containsSub t pat = true) : containsSub (u ++ t) pat = true := by
  induction u with
  | nil => exact h
  | cons c u' ih =>
    have ih' : containsSub (u'.append t) pat = true := ih
    simp only [List.cons_append, containsSub, ih', Bool.or_true]

/-- A string starting with the pattern contains it. -/
theorem containsSub_self_append (f v : List Char) :
    containsSub (f ++ v) f = true := by
  cases f with
  | nil => exact containsSub_nil_pat v
  | cons c f' =>
    simp only [List.cons_append, containsSub]
    have hp : isPre (c :: f') ((c :: f') ++ v) = true := isPre_self_append _ _
    rw [List.cons_append] at hp
    simp [hp]

/-- If the fragments occur in order, the first one occurs at all. -/
theorem inOrder_head_contains (s f : List Char) (fs : List (List Char))
    (h : InOrder s (f :: fs)) : containsSub s f = true := by
  obtain ⟨u, v, hs, _⟩ := h
  subst hs
  rw [List.append_assoc]
  exact containsSub_append_of u (f ++ v) f (containsSub_self_append f v)

/-- C6 counterexample: the claim as stated is false.  `to_dir = "x__TTY"`
and `tty = "Z"` contain none of the three slot markers — so they satisfy
the spec's §4.1 substitution precondition — yet the rendered script does
not perform step (a): the `__TTY__` substitution matches one character into
the substituted `to_dir` value, so every redirect targets the garbled path
`xZTTY__` instead of `to_dir ++ tty`, and the script does not contain the
step-(a) redirect fragment at all (hence no in-order occurrence of the five
steps). -/
theorem stage2_script_order_broken :
    containsSub "x__TTY".data toMarker = false ∧
    containsSub "x__TTY".data ttyMarker = false ∧
    containsSub "x__TTY".data logMarker = false ∧
    containsSub "Z".data toMarker = false ∧
    containsSub "Z".data ttyMarker = false ∧
    containsSub "Z".data logMarker = false ∧
    containsSub (renderStage2Script "x__TTY" "Z" Level.info)
      (fragRedirect "x__TTY".data "Z".data) = false ∧
    ¬ InOrder (renderStage2Script "x__TTY" "Z" Level.info)
      [fragRedirect "x__TTY".data "Z".data, fragCd "x__TTY".data,
       fragPrivate, fragPivot, fragExecInit] := by
  refine ⟨by decide, by decide, by decide, by decide, by decide, by decide,
    by decide, ?_⟩
  intro h
  have hc := inOrder_head_contains _ _ _ h
  have hn : containsSub (renderStage2Script "x__TTY" "Z" Level.info)
      (fragRedirect "x__TTY".data "Z".data) = false := by decide
  rw [hn] at hc
  exact absurd hc (by simp)

/-- C6 (amended): for every rendering of the pivot-script template whose
substituted staged-root and TTY paths are free of underscores (a
precondition strictly stronger than §4.1's "no markers inside substituted
values", which the counterexample shows is not enough), the rendered script
contains, in this order: (a) the conditional stdio redirect to the provided
TTY guarded by its existence test, (b) the change of working directory to
the staged root, (c) `mount --make-rprivate /`, (d) `pivot_root .
mnt/old_root`, and (e) the re-exec of the takeover binary in chroot with
the `--init` phase selector. -/
theorem stage2_script_steps_in_order (toDir tty : String) (lvl : Level)
    (ha : '_' ∉ toDir.data) (hb : '_' ∉ tty.data) :
    InOrder (renderStage2Script toDir tty lvl)
      [fragRedirect toDir.data tty.data, fragCd toDir.data, fragPrivate,
       fragPivot, fragExecInit] := by
  rw [renderStage2Script_splice toDir tty lvl ha hb]
  refine ⟨chunk1 ++ (toDir.data ++ chunk2pre),
    chunk7b ++ (chunk8 ++ (toDir.data ++ (chunk9a ++ (chunk9b ++ (chunk10 ++
      (chunk11 ++ (chunk12 ++ (chunk13 ++ (chunk14 ++ (chunk15 ++
      ((levelStr lvl).data ++ chunk16))))))))))),
    ?_, ?_⟩
  · simp only [fragRedirect, fragCd, fragPrivate, fragPivot, fragExecInit, chunk2, chunk7, chunk9, List.append_assoc]
  · refine ⟨chunk7b,
      chunk9b ++ (chunk10 ++ (chunk11 ++ (chunk12 ++ (chunk13 ++ (chunk14 ++
        (chunk15 ++ ((levelStr lvl).data ++ chunk16))))))), ?_, ?_⟩
    · simp only [fragRedirect, fragCd, fragPrivate, fragPivot, fragExecInit, chunk2, chunk7, chunk9, List.append_assoc]
    · refine ⟨chunk9b,
        chunk11 ++ (chunk12 ++ (chunk13 ++ (chunk14 ++ (chunk15 ++
          ((levelStr lvl).data ++ chunk16))))), ?_, ?_⟩
      · simp only [fragRedirect, fragCd, fragPrivate, fragPivot, fragExecInit, chunk2, chunk7, chunk9, List.append_assoc]
      · refine ⟨chunk11,
          chunk13 ++ (chunk14 ++ (chunk15 ++ ((levelStr lvl).data ++ chunk16))),
          ?_, ?_⟩
        · simp only [fragRedirect, fragCd, fragPrivate, fragPivot, fragExecInit, chunk2, chunk7, chunk9, List.append_assoc]
        · refine ⟨chunk13, chunk15 ++ ((levelStr lvl).data ++ chunk16), ?_, ?_⟩
          · simp only [fragRedirect, fragCd, fragPrivate, fragPivot, fragExecInit, chunk2, chunk7, chunk9, List.append_assoc]
          · trivial

/-- Witness for the C6 theorem at concrete underscore-free paths. -/
theorem stage2_script_steps_in_order_witness :
    ('_' ∉ "/tkvr2".data) ∧ ('_' ∉ "/dev/tty0".data) ∧
    InOrder (renderStage2Script "/tkvr2" "/dev/tty0" Level.debug)
      [fragRedirect "/tkvr2".data "/dev/tty0".data, fragCd "/tkvr2".data,
       fragPrivate, fragPivot, fragExecInit] :=
  ⟨by decide, by decide,
   stage2_script_steps_in_order "/tkvr2" "/dev/tty0" Level.debug (by decide)
     (by decide)⟩

/-! ### Association-list lemmas -/

theorem alookup_ainsert {α : Type} (m : List (String × α)) (k : String) (v : α) :
    alookup (ainsert m k v) k = some v := by
  induction m with
  | nil => simp [ainsert, alookup]
  | cons kv rest ih =>
    obtain ⟨k', v'⟩ := kv
    by_cases hk : k' = k
    · subst hk
      simp [ainsert, alookup]
    · simp [ainsert, alookup, hk, ih]

theorem alookup_ainsert_ne {α : Type} (m : List (String × α)) (k k' : String)
    (v : α) (hne : k' ≠ k) : alookup (ainsert m k v) k' = alookup m k' := by
  induction m with
  | nil =>
    have h2 : k ≠ k' := fun h => hne h.symm
    simp [ainsert, alookup, h2]
  | cons kv rest ih =>
    obtain ⟨k0, v0⟩ := kv
    by_cases hk : k0 = k
    · subst hk
      have hne2 : k0 ≠ k' := fun hc => hne hc.symm
      simp [ainsert, alookup, hne2]
    · simp only [ainsert, alookup, if_neg hk]
      by_cases hk2 : k0 = k'
      · simp [alookup, hk2]
      · simp [alookup, hk2, ih]

/-! ### Accessor error-kind lemmas -/

theorem get_str_val_kinds (cfg : BalenaCfgJson) (name : String) :
    (alookup cfg.config name = none →
      resKind (cfg.get_str_val name) = some ErrorKind.NotFound) ∧
    (∀ v : Json, alookup cfg.config name = some v → v.as_str = none →
      resKind (cfg.get_str_val name) = some ErrorKind.InvParam) := by
  constructor
  · intro h
    simp [BalenaCfgJson.get_str_val, h, resKind, Error.with_context]
  · intro v hv hs
    simp [BalenaCfgJson.get_str_val, hv, hs, resKind, Error.with_context]

theorem get_uint_val_kinds (cfg : BalenaCfgJson) (name : String) :
    (alookup cfg.config name = none →
      resKind (cfg.get_uint_val name) = some ErrorKind.NotFound) ∧
    (∀ v : Json, alookup cfg.config name = some v → v.as_u64 = none →
      v.as_str = none →
      resKind (cfg.get_uint_val name) = some ErrorKind.InvParam) ∧
    (∀ s : String, alookup cfg.config name = some (Json.str s) →
      parseU64 s = none →
      resKind (cfg.get_uint_val name) = some ErrorKind.Upstream) := by
  refine ⟨?_, ?_, ?_⟩
  · intro h
    simp [BalenaCfgJson.get_uint_val, h, resKind, Error.with_context]
  · intro v hv hu hs
    simp [BalenaCfgJson.get_uint_val, hv, hu, hs, resKind, Error.with_context]
  · intro s hv hp
    simp [BalenaCfgJson.get_uint_val, hv, hp, resKind, Error.upstream,
      Json.as_u64, Json.as_str]

theorem parseU64_lt (s : String) (v : Nat) (h : parseU64 s = some v) :
    v < 18446744073709551616 := by
  unfold parseU64 at h
  by_cases h1 : stripPlus s.data ≠ [] ∧ (stripPlus s.data).all Char.isDigit
  · rw [if_pos h1] at h
    by_cases h2 : digitsToNat (stripPlus s.data) < 18446744073709551616
    · rw [if_pos h2] at h
      cases h
      exact h2
    · rw [if_neg h2] at h
      cases h
  · rw [if_neg h1] at h
    cases h

theorem as_u64_lt (j : Json) (v : Nat) (h : j.as_u64 = some v) :
    v < 18446744073709551616 := by
  cases j with
  | num n =>
    simp only [Json.as_u64] at h
    by_cases hb : 0 ≤ n ∧ n < (18446744073709551616 : Int)
    · rw [if_pos hb] at h
      cases h
      omega
    · rw [if_neg hb] at h
      cases h
  | null => simp [Json.as_u64] at h
  | bool b => simp [Json.as_u64] at h
  | str s => simp [Json.as_u64] at h
  | arr es => simp [Json.as_u64] at h
  | obj ms => simp [Json.as_u64] at h

/-- A successful `get_uint_val` result is a `u64` value: it is below
`2^64`. -/
theorem get_uint_val_ok_lt (cfg : BalenaCfgJson) (name : String) (v : Nat)
    (h : cfg.get_uint_val name = .ok v) : v < 18446744073709551616 := by
  unfold BalenaCfgJson.get_uint_val at h
  cases hl : alookup cfg.config name with
  | none => simp [hl] at h
  | some val =>
    simp only [hl] at h
    cases hu : val.as_u64 with
    | some u =>
      simp only [hu] at h
      cases h
      exact as_u64_lt val v hu
    | none =>
      simp only [hu] at h
      cases hs : val.as_str with
      | none => simp [hs] at h
      | some s =>
        simp only [hs] at h
        cases hp : parseU64 s with
        | none => simp [hp] at h
        | some u =>
          simp only [hp] at h
          cases h
          exact parseU64_lt s v hp

/-! ### Claim theorems for the config module -/

/-- C3 counterexample: with `vpnPort` bound to the string `"abc"` — present
but whose content does not parse as an unsigned integer — `get_vpn_port`
fails with kind `Upstream` (the `upstream_with_context`-wrapped parse
error), not with `InvalidParameter` as the claim states. -/
theorem vpn_port_string_parse_kind :
    resKind cfgBadVpnPort.get_vpn_port = some ErrorKind.Upstream ∧
    resKind cfgBadVpnPort.get_vpn_port ≠ some ErrorKind.InvParam :=
  ⟨rfl, by decide⟩

/-- C3 (amended): for every parsed config, each typed accessor fails with
kind `NotFound` when its key is absent; with kind `InvalidParameter` when
the key is present with a wrong-typed value (non-string for the string
accessors; neither `u64` nor string for the uint accessors); except that a
string value for a uint field whose content does not parse as an unsigned
integer fails with the upstream-wrapped parse error (kind `Upstream`), not
`InvalidParameter`. -/
theorem typed_accessor_error_kinds (cfg : BalenaCfgJson) :
    ((alookup cfg.config "apiKey" = none →
       resKind cfg.get_api_key = some ErrorKind.NotFound) ∧
     (∀ v : Json, alookup cfg.config "apiKey" = some v → v.as_str = none →
       resKind cfg.get_api_key = some ErrorKind.InvParam)) ∧
    ((alookup cfg.config "apiEndpoint" = none →
       resKind cfg.get_api_endpoint = some ErrorKind.NotFound) ∧
     (∀ v : Json, alookup cfg.config "apiEndpoint" = some v → v.as_str = none →
       resKind cfg.get_api_endpoint = some ErrorKind.InvParam)) ∧
    ((alookup cfg.config "vpnEndpoint" = none →
       resKind cfg.get_vpn_endpoint = some ErrorKind.NotFound) ∧
     (∀ v : Json, alookup cfg.config "vpnEndpoint" = some v → v.as_str = none →
       resKind cfg.get_vpn_endpoint = some ErrorKind.InvParam)) ∧
    ((alookup cfg.config "deviceType" = none →
       resKind cfg.get_device_type = some ErrorKind.NotFound) ∧
     (∀ v : Json, alookup cfg.config "deviceType" = some v → v.as_str = none →
       resKind cfg.get_device_type = some ErrorKind.InvParam)) ∧
    ((alookup cfg.config "applicationId" = none →
       resKind cfg.get_app_id = some ErrorKind.NotFound) ∧
     (∀ v : Json, alookup cfg.config "applicationId" = some v →
       v.as_u64 = none → v.as_str = none →
       resKind cfg.get_app_id = some ErrorKind.InvParam) ∧
     (∀ s : String, alookup cfg.config "applicationId" = some (Json.str s) →
       parseU64 s = none →
       resKind cfg.get_app_id = some ErrorKind.Upstream)) ∧
    ((alookup cfg.config "vpnPort" = none →
       resKind cfg.get_vpn_port = some ErrorKind.NotFound) ∧
     (∀ v : Json, alookup cfg.config "vpnPort" = some v →
       v.as_u64 = none → v.as_str = none →
       resKind cfg.get_vpn_port = some ErrorKind.InvParam) ∧
     (∀ s : String, alookup cfg.config "vpnPort" = some (Json.str s) →
       parseU64 s = none →
       resKind cfg.get_vpn_port = some ErrorKind.Upstream)) :=
  ⟨get_str_val_kinds cfg "apiKey", get_str_val_kinds cfg "apiEndpoint",
   get_str_val_kinds cfg "vpnEndpoint", get_str_val_kinds cfg "deviceType",
   get_uint_val_kinds cfg "applicationId", get_uint_val_kinds cfg "vpnPort"⟩

/-- Witness for the amended C3 theorem at concrete configs: missing keys,
wrong-typed values, and the unparseable string uint. -/
theorem typed_accessor_error_kinds_witness :
    resKind cfgEmpty.get_api_key = some ErrorKind.NotFound ∧
    resKind cfgEmpty.get_app_id = some ErrorKind.NotFound ∧
    resKind cfgWrongTypes.get_api_key = some ErrorKind.InvParam ∧
    resKind cfgWrongTypes.get_app_id = some ErrorKind.InvParam ∧
    resKind cfgBadVpnPort.get_vpn_port = some ErrorKind.Upstream := by
  have h1 := typed_accessor_error_kinds cfgEmpty
  have h2 := typed_accessor_error_kinds cfgWrongTypes
  have h3 := typed_accessor_error_kinds cfgBadVpnPort
  exact ⟨h1.1.1 rfl, h1.2.2.2.2.1.1 rfl,
         h2.1.2 (Json.num 5) rfl rfl,
         h2.2.2.2.2.1.2.1 (Json.bool true) rfl rfl rfl,
         h3.2.2.2.2.2.2.2 "abc" rfl rfl⟩

/-- C9: for every config record and hostname `h`, `set_host_name` sets the
modified flag to true, binds `"hostname"` to the JSON string `h`, leaves
every other key's value unchanged, and returns `some` of the JSON rendering
of the previous `"hostname"` value — for a string value with its
surrounding quotation marks — exactly when the key was present before the
call, and `none` otherwise. -/
theorem set_host_name_spec (cfg : BalenaCfgJson) (h : String) :
    (cfg.set_host_name h).1.modified = true ∧
    alookup (cfg.set_host_name h).1.config "hostname" = some (Json.str h) ∧
    (∀ k : String, k ≠ "hostname" →
      alookup (cfg.set_host_name h).1.config k = alookup cfg.config k) ∧
    (cfg.set_host_name h).2 = (alookup cfg.config "hostname").map Json.render ∧
    (∀ s : String, alookup cfg.config "hostname" = some (Json.str s) →
      (cfg.set_host_name h).2 = some ("\"" ++ escapeString s ++ "\"")) := by
  refine ⟨rfl, ?_, ?_, rfl, ?_⟩
  · exact alookup_ainsert cfg.config "hostname" (Json.str h)
  · intro k hk
    exact alookup_ainsert_ne cfg.config "hostname" k (Json.str h) hk
  · intro s hs
    show (alookup cfg.config "hostname").map Json.render = _
    rw [hs]
    rfl

/-- Witness for the C9 theorem: on `cfgNet` (no previous hostname) the call
returns `none` and preserves `apiKey`; on `c2cfg1` (hostname `"myhost"`)
it returns the quoted rendering `"\"myhost\""`. -/
theorem set_host_name_spec_witness :
    (cfgNet.set_host_name "newhost").1.modified = true ∧
    alookup (cfgNet.set_host_name "newhost").1.config "hostname" =
      some (Json.str "newhost") ∧
    alookup (cfgNet.set_host_name "newhost").1.config "apiKey" =
      alookup cfgNet.config "apiKey" ∧
    (cfgNet.set_host_name "newhost").2 = none ∧
    (c2cfg1.set_host_name "otherhost").2 = some "\"myhost\"" := by
  have h1 := set_host_name_spec cfgNet "newhost"
  have h2 := set_host_name_spec c2cfg1 "otherhost"
  refine ⟨h1.1, h1.2.1, h1.2.2.1 "apiKey" (by decide), ?_, ?_⟩
  · rw [h1.2.2.2.1]
    rfl
  · rw [h2.2.2.2.2 "myhost" rfl]
    rfl

/-- C10: `write` is not atomic on error: the in-memory mapping is unchanged
by `write` in every case; and when the open succeeds but canonicalizing the
target path fails, `write` returns an error while the modified flag has
already been cleared to false, the stored file reference still holds its
old value, and the target file has nevertheless been written. -/
theorem write_not_atomic (self : BalenaCfgJson) (fs : FileSys) (target : String) :
    ((self.write fs target).2.1.config = self.config) ∧
    (fs.openOk target = true → fs.canon target = none →
      isErr (self.write fs target).2.2 = true ∧
      (self.write fs target).2.1.modified = false ∧
      (self.write fs target).2.1.file = self.file ∧
      alookup (self.write fs target).1.files target ≠ none) := by
  constructor
  · unfold BalenaCfgJson.write
    by_cases hopen : fs.openOk target = true
    · simp only [hopen, if_true]
      cases hcanon : fs.canon target <;> rfl
    · simp only [Bool.not_eq_true] at hopen
      simp [hopen]
  · intro hopen hcanon
    unfold BalenaCfgJson.write
    simp [hopen, hcanon, isErr, alookup_ainsert]

/-- Witness for the C10 theorem on a file system whose canonicalization
always fails. -/
theorem write_not_atomic_witness :
    fsNoCanon.openOk "/work/config.json" = true ∧
    fsNoCanon.canon "/work/config.json" = none ∧
    (c2cfg1.write fsNoCanon "/work/config.json").2.1.config = c2cfg1.config ∧
    isErr (c2cfg1.write fsNoCanon "/work/config.json").2.2 = true ∧
    (c2cfg1.write fsNoCanon "/work/config.json").2.1.modified = false ∧
    (c2cfg1.write fsNoCanon "/work/config.json").2.1.file = c2cfg1.file := by
  have h := write_not_atomic c2cfg1 fsNoCanon "/work/config.json"
  have h2 := h.2 rfl rfl
  exact ⟨rfl, rfl, h.1, h2.1, h2.2.1, h2.2.2.1⟩

/-- C2 evaluation: the parse → set_host_name → write → re-parse round trip.
With a fresh target (`/staged/config.json`) the re-parse yields the
original mapping plus the new hostname and the modified flag cleared, as
the claim states — but writing over the pre-existing longer file
`/work/config.json` leaves 14 stale trailing bytes, because `write` opens
the target with `create(true).write(true)` and no `truncate`, so the
re-parse fails with a JSON parse error: the code violates the claimed
round trip for such targets. -/
theorem roundtrip_truncate_bug :
    BalenaCfgJson.new c2fs0 "/mnt/boot/config.json" =
      .ok ⟨[("deviceType", Json.str "intel-nuc")], "/mnt/boot/config.json", false⟩ ∧
    (⟨[("deviceType", Json.str "intel-nuc")], "/mnt/boot/config.json", false⟩ :
        BalenaCfgJson).set_host_name "myhost" = (c2cfg1, none) ∧
    (c2cfg1.write c2fs0 "/staged/config.json").2.2 = .ok () ∧
    (c2cfg1.write c2fs0 "/staged/config.json").2.1.modified = false ∧
    BalenaCfgJson.new (c2cfg1.write c2fs0 "/staged/config.json").1
        "/staged/config.json" =
      .ok ⟨[("deviceType", Json.str "intel-nuc"), ("hostname", Json.str "myhost")],
           "/staged/config.json", false⟩ ∧
    (c2cfg1.write c2fs0 "/work/config.json").2.2 = .ok () ∧
    (c2cfg1.write c2fs0 "/work/config.json").2.1.modified = false ∧
    BalenaCfgJson.new (c2cfg1.write c2fs0 "/work/config.json").1
        "/work/config.json" =
      .error (Error.upstream "Failed to parse json from file '/work/config.json'") :=
  ⟨rfl, rfl, rfl, rfl, rfl, rfl, rfl, rfl⟩

/-- C1 counterexample: with the force flag SET in the options, both checks
enabled, a supported device type, and every TCP connect failing, `check`
still returns an error (`Error::displayed()`) — it does not merely log a
warning and succeed. -/
theorem check_fails_despite_force :
    optsForce.isForce = true ∧
    BalenaCfgJson.check cfgNet optsForce devAny netDown = .error Error.displayed :=
  ⟨rfl, rfl⟩

/-- C1 (amended): network-check failures are fatal inside `check`
regardless of the force flag: for every options value with the API or the
VPN check enabled, if every TCP connect fails then `check` returns an
error, whatever the force flag is; the force-based tolerance is
implemented by `check`'s caller, not by `check` itself. -/
theorem check_fails_when_unreachable (cfg : BalenaCfgJson) (opts : Options)
    (device : Device) (net : Net)
    (henabled : opts.isApiCheck = true ∨ opts.isVpnCheck = true)
    (hdown : ∀ h p, net.tcpConnect h p = false) :
    isErr (cfg.check opts device net) = true := by
  unfold BalenaCfgJson.check
  cases happ : cfg.get_app_id with
  | error e => rfl
  | ok appId =>
    cases hdev : cfg.get_device_type with
    | error e => rfl
    | ok dt =>
      cases hsup : device.supportsDeviceType dt with
      | false => simp [hsup, isErr]
      | true =>
        cases hapi : opts.isApiCheck with
        | true =>
          cases hep : cfg.get_api_endpoint with
          | error e => simp [hsup, isErr]
          | ok ep =>
            cases hurl : net.parseUrl ep with
            | none => simp [hsup, hurl, isErr]
            | some url =>
              cases hhost : url.host with
              | none => simp [hsup, hurl, hhost, isErr]
              | some host => simp [hsup, hurl, hhost, hdown, isErr]
        | false =>
          rcases henabled with hA | hV
          · rw [hapi] at hA
            exact absurd hA (by simp)
          · cases hve : cfg.get_vpn_endpoint with
            | error e => simp [hsup, hV, isErr]
            | ok ve =>
              cases hvp : cfg.get_vpn_port with
              | error e => simp [hsup, hV, hvp, isErr]
              | ok vp => simp [hsup, hV, hvp, hdown, isErr]

/-- Witness for the amended C1 theorem: concrete config, options with force
set and both checks enabled, and an all-failing network. -/
theorem check_fails_when_unreachable_witness :
    (optsForce.isApiCheck = true ∨ optsForce.isVpnCheck = true) ∧
    isErr (BalenaCfgJson.check cfgNet optsForce devAny netDown) = true :=
  ⟨Or.inl rfl,
   check_fails_when_unreachable cfgNet optsForce devAny netDown (Or.inl rfl)
     (fun _ _ => rfl)⟩

/-- C4 counterexample: `get_vpn_port` yields the full u64 value `65536`
(not an unsigned 16-bit one), and with the VPN check enabled `check`
connects to port `65536 % 2^16 = 0` rather than 65536: under an oracle that
admits only port 0 — and in particular refuses port 65536 — `check`
succeeds. -/
theorem vpn_port_truncated :
    BalenaCfgJson.get_vpn_port cfgVpn65536 = .ok 65536 ∧
    2 ^ 16 ≤ (65536 : Nat) ∧
    netPortZeroOnly.tcpConnect "vpn.balena-cloud.com" 65536 = false ∧
    BalenaCfgJson.check cfgVpn65536 optsVpnOnly devAny netPortZeroOnly = .ok () :=
  ⟨rfl, by decide, rfl, rfl⟩

/-- C4 (amended): `get_vpn_port` yields an unsigned 64-bit value (bounded
by `2^64 = 18446744073709551616`), and when the VPN check is enabled and
the earlier check steps pass, `check`'s VPN probe connects to
`vpnEndpoint` at port `vpnPort % 2^16` — the `as u16` truncation — which
equals `vpnPort` only when `vpnPort < 2^16`. -/
theorem vpn_port_mod_spec (cfg : BalenaCfgJson) (opts : Options)
    (device : Device) (net : Net) (appId : Nat) (dt ep : String) (vp : Nat)
    (hapi : opts.isApiCheck = false) (hvpn : opts.isVpnCheck = true)
    (happ : cfg.get_app_id = .ok appId)
    (hdev : cfg.get_device_type = .ok dt)
    (hsup : device.supportsDeviceType dt = true)
    (hep : cfg.get_vpn_endpoint = .ok ep)
    (hvp : cfg.get_vpn_port = .ok vp) :
    vp < 18446744073709551616 ∧
    cfg.check opts device net =
      (if net.tcpConnect ep (vp % 65536) then .ok () else .error Error.displayed) := by
  constructor
  · exact get_uint_val_ok_lt cfg "vpnPort" vp hvp
  · unfold BalenaCfgJson.check
    rw [happ, hdev]
    simp [hsup, hapi, hvpn, hep, hvp]

/-- Witness for the amended C4 theorem at `vpnPort = 65536`: the probe hits
port 0, which the oracle accepts, so `check` succeeds. -/
theorem vpn_port_mod_spec_witness :
    (65536 : Nat) < 18446744073709551616 ∧
    BalenaCfgJson.check cfgVpn65536 optsVpnOnly devAny netPortZeroOnly = .ok () := by
  have h := vpn_port_mod_spec cfgVpn65536 optsVpnOnly devAny netPortZeroOnly
    1234567 "intel-nuc" "vpn.balena-cloud.com" 65536 rfl rfl rfl rfl rfl rfl rfl
  exact ⟨h.1, by rw [h.2]; rfl⟩

/-! ### Claim theorems for the assets module -/

/-- C7 counterexample: on an unmatched architecture `Assets::new` does not
fail with a typed `UnsupportedArchitecture` error — it panics (aborting the
process) with the message of `assets.rs:53`. -/
theorem assets_new_panics :
    Assets.new TargetArch.other =
      NewResult.panicked
        "No assets are provided in binary - please compile with device feature" ∧
    Assets.new TargetArch.other ≠
      NewResult.err MigErrorKind.UnsupportedArchitecture :=
  ⟨rfl, by decide⟩

/-- C7 (amended): `Assets::new` chooses the embedded shell blob matching
the running architecture; for each supported architecture (ARM, x86-64) it
returns a non-empty blob whose first bytes are the ELF executable magic,
and for every unmatched architecture it aborts immediately with a clear
`panic!` message — not a typed `UnsupportedArchitecture` error. -/
theorem assets_new_spec :
    Assets.new TargetArch.arm = NewResult.ok ⟨OSArch.ARMHF, RPI3_BUSYBOX⟩ ∧
    (RPI3_BUSYBOX ≠ [] ∧ RPI3_BUSYBOX.take 4 = elfMagic) ∧
    Assets.new TargetArch.x86_64 = NewResult.ok ⟨OSArch.AMD64, X86_64_BUSYBOX⟩ ∧
    (X86_64_BUSYBOX ≠ [] ∧ X86_64_BUSYBOX.take 4 = elfMagic) ∧
    (∀ t : TargetArch, t ≠ TargetArch.arm → t ≠ TargetArch.x86_64 →
      Assets.new t =
        NewResult.panicked
          "No assets are provided in binary - please compile with device feature") := by
  refine ⟨rfl, by decide, rfl, by decide, ?_⟩
  intro t h1 h2
  cases t with
  | arm => exact absurd rfl h1
  | x86_64 => exact absurd rfl h2
  | other => rfl

/-- Witness for the amended C7 theorem at the unmatched architecture. -/
theorem assets_new_spec_witness :
    Assets.new TargetArch.other =
      NewResult.panicked
        "No assets are provided in binary - please compile with device feature" :=
  assets_new_spec.2.2.2.2 TargetArch.other (by decide) (by decide)

/-! ### Claim theorems for the entry point -/

/-- C8: when the stage2 or init selector is set, `main` exits with code 1;
when stage 1 returns an error, `main` logs it unless its kind is
`Displayed`, flushes the log, and exits with code 1; and `main` exits with
code 0 only when stage 1 completes without error. -/
theorem main_exit_codes (opts : MainOptions) (env : MainEnv) :
    (opts.isStage2 = true → (mainRun opts env).exitCode = 1) ∧
    (opts.isInit = true → (mainRun opts env).exitCode = 1) ∧
    (opts.isStage2 = false → opts.isInit = false → env.setLogFileOk = true →
      ∀ e : MigError, env.stage1Result = .error e →
        (mainRun opts env).exitCode = 1 ∧
        (mainRun opts env).flushed = true ∧
        ((mainRun opts env).loggedStage1Error = true ↔
          e.kind ≠ MigErrorKind.Displayed)) ∧
    ((mainRun opts env).exitCode = 0 →
      opts.isStage2 = false ∧ opts.isInit = false ∧ env.stage1Result = .ok ()) := by
  obtain ⟨s2, ini⟩ := opts
  obtain ⟨dst, fileOk, res⟩ := env
  refine ⟨?_, ?_, ?_, ?_⟩
  · intro h
    subst h
    cases dst <;> simp [mainRun]
  · intro h
    subst h
    cases s2 <;> cases dst <;> simp [mainRun]
  · intro h1 h2 h3 e h4
    subst h1
    subst h2
    subst h3
    subst h4
    refine ⟨by simp [mainRun], by simp [mainRun], ?_⟩
    cases hk : e.kind <;> simp [mainRun, hk]
  · intro h0
    cases s2 <;> cases ini <;> cases dst <;> cases fileOk <;>
      rcases res with e | u <;> simp_all [mainRun]

/-- Witness for the C8 theorem: a stage-2 run exits 1; a stage-1 `Network`
error is logged, flushed and exits 1. -/
theorem main_exit_codes_witness :
    (mainRun ⟨true, false⟩ ⟨true, true, .ok ()⟩).exitCode = 1 ∧
    (mainRun ⟨false, false⟩ ⟨true, true, .error ⟨MigErrorKind.Network⟩⟩).exitCode = 1 ∧
    (mainRun ⟨false, false⟩ ⟨true, true, .error ⟨MigErrorKind.Network⟩⟩).flushed = true ∧
    ((mainRun ⟨false, false⟩
        ⟨true, true, .error ⟨MigErrorKind.Network⟩⟩).loggedStage1Error = true ↔
      MigErrorKind.Network ≠ MigErrorKind.Displayed) := by
  have h1 := main_exit_codes ⟨true, false⟩ ⟨true, true, .ok ()⟩
  have h2 := main_exit_codes ⟨false, false⟩ ⟨true, true, .error ⟨MigErrorKind.Network⟩⟩
  have h3 := h2.2.2.1 rfl rfl rfl ⟨MigErrorKind.Network⟩ rfl
  exact ⟨h1.1 rfl, h3.1, h3.2.1, h3.2.2⟩

end Takeover
